import Mathlib

/-!
Shallow embedding of the NASA POWER weather data fetcher
(`src/nasa_power_data_fetcher.py`).

Python dictionaries are modelled as association lists preserving insertion
order (Python 3.7+ dicts iterate in insertion order); JSON numeric values are
modelled as exact rationals `ℚ`; Python `None` is `Option.none`; code paths
that raise an uncaught exception are modelled with `Except String`, where
`.error` marks the exception propagating out of the function.
-/

namespace NasaPower

/-- Per-site configuration entry `{lat, long, POINTS}` (config dict value). -/
structure SiteInfo where
  lat : ℚ
  long : ℚ
  points : String
  deriving DecidableEq

/-- The loaded YAML configuration, restricted to the fields the code reads:
`sites`, the per-site entries keyed by site code, `years`, and
`api_settings.parameters` / `api_settings.community`. -/
structure Config where
  sites : List String
  siteInfos : List (String × SiteInfo)
  years : List Nat
  parameters : List String
  community : String
  deriving DecidableEq

/-- `data['properties']['parameter']`: parameter code ↦ (date string ↦ value). -/
abbrev ParamMap := List (String × List (String × ℚ))

/-- Outcome of one HTTP GET, abstracting the network: a transport failure /
non-2xx status (`requestError`), a decodable body lacking
`properties.parameter` (`badShape`), or a well-shaped payload carrying the
`properties.parameter` mapping (`success`). -/
inductive ApiResult where
  | requestError : ApiResult
  | badShape : ApiResult
  | success : ParamMap → ApiResult
  deriving DecidableEq

/-- The upstream API as an oracle from (site code, year) to a response. -/
abbrev Api := String → Nat → ApiResult

def baseUrl : String := "https://power.larc.nasa.gov/api/temporal/daily/point"

/-- Rendering of a numeric value into a query string / CSV cell
(abstraction of Python `str()` on numbers; exact format is irrelevant to the
claims, determinism is what matters). -/
def renderQ (q : ℚ) : String := toString q.num ++ "/" ++ toString q.den

/-- `_build_api_url`, lines 55-65: the `params` dict, in source order. -/
def buildApiParams (cfg : Config) (siteInfo : SiteInfo) (year : Nat) :
    List (String × String) :=
  [ ("parameters", String.intercalate "," cfg.parameters)
  , ("community", cfg.community)
  , ("longitude", renderQ siteInfo.long)
  , ("latitude", renderQ siteInfo.lat)
  , ("start", toString year ++ "0101")
  , ("end", toString year ++ "1231")
  , ("format", "json") ]

/-- `_build_api_url`, lines 67-69: `'&'.join(f"{k}={v}")` appended to the
base URL after `?`. -/
def buildApiUrl (cfg : Config) (siteInfo : SiteInfo) (year : Nat) : String :=
  baseUrl ++ "?" ++
    String.intercalate "&"
      ((buildApiParams cfg siteInfo year).map fun kv => kv.1 ++ "=" ++ kv.2)

/-- `_fetch_data`, lines 71-96: a transport error (`RequestException`) or an
invalid response shape (`'properties' not in data or 'parameter' not in
data['properties']`) both yield `None`; success yields the payload's
`properties.parameter` mapping. -/
def fetchData (api : Api) (siteCode : String) (year : Nat) : Option ParamMap :=
  match api siteCode year with
  | .requestError => none
  | .badShape => none
  | .success p => some p

/-- One output row (`row` dict of `_process_site_data`, lines 121-152), with
the fixed column set in source order. -/
structure WeatherRecord where
  site_code : String
  points : String
  latitude : ℚ
  longitude : ℚ
  date : String
  year : Nat
  month : Nat
  day : Nat
  air_temp_c : Option ℚ
  air_temp_max_c : Option ℚ
  dewpoint_temp_c : Option ℚ
  solar_radiation_kwh_m2 : Option ℚ
  wind_speed_ms : Option ℚ
  wind_speed_max_ms : Option ℚ
  wind_direction_deg : Option ℚ
  wind_direction_max_deg : Option ℚ
  cloud_cover_pct : Option ℚ
  precipitation_mm : Option ℚ
  deriving DecidableEq

/-- `param_mapping`, lines 133-144: NASA parameter code ↦ output column. -/
def paramMapping : List (String × String) :=
  [ ("T2M", "air_temp_c")
  , ("T2M_MAX", "air_temp_max_c")
  , ("T2MDEW", "dewpoint_temp_c")
  , ("ALLSKY_SFC_SW_DWN", "solar_radiation_kwh_m2")
  , ("WS2M", "wind_speed_ms")
  , ("WS2M_MAX", "wind_speed_max_ms")
  , ("WD2M", "wind_direction_deg")
  , ("WD2M_MAX", "wind_direction_max_deg")
  , ("CLOUD_AMT_DAY", "cloud_cover_pct")
  , ("PRECTOTCORR", "precipitation_mm") ]

/-- Line 150: `row[col_name] = None if value == -999 else value`, where
`value` may itself be `None` (from `dict.get`); `None == -999` is false in
Python, so a missing value stays `None`. -/
def sentinelFilter (value : Option ℚ) : Option ℚ :=
  if value = some (-999) then none else value

/-- Lines 146-152: the value stored for one output column — if the NASA
parameter is a key of the response mapping, `parameters[p].get(date)` passed
through the sentinel check, otherwise `None`. -/
def fieldValue (parameters : ParamMap) (nasaParam dateStr : String) : Option ℚ :=
  match parameters.lookup nasaParam with
  | some dateMap => sentinelFilter (dateMap.lookup dateStr)
  | none => none

/-- Decimal reading of a digit-character slice (Python `int(...)` on the
`YYYYMMDD` slices; the fetched date keys are digit strings). -/
def sliceNat (cs : List Char) : Nat :=
  cs.foldl (fun acc c => acc * 10 + (c.toNat - 48)) 0

/-- Lines 121-152: the row built for one date string; `year`/`month`/`day`
are fixed-width slices of the `YYYYMMDD` string. -/
def mkRow (siteCode : String) (si : SiteInfo) (parameters : ParamMap)
    (dateStr : String) : WeatherRecord :=
  { site_code := siteCode
  , points := si.points
  , latitude := si.lat
  , longitude := si.long
  , date := dateStr
  , year := sliceNat (dateStr.data.take 4)
  , month := sliceNat ((dateStr.data.drop 4).take 2)
  , day := sliceNat ((dateStr.data.drop 6).take 2)
  , air_temp_c := fieldValue parameters "T2M" dateStr
  , air_temp_max_c := fieldValue parameters "T2M_MAX" dateStr
  , dewpoint_temp_c := fieldValue parameters "T2MDEW" dateStr
  , solar_radiation_kwh_m2 := fieldValue parameters "ALLSKY_SFC_SW_DWN" dateStr
  , wind_speed_ms := fieldValue parameters "WS2M" dateStr
  , wind_speed_max_ms := fieldValue parameters "WS2M_MAX" dateStr
  , wind_direction_deg := fieldValue parameters "WD2M" dateStr
  , wind_direction_max_deg := fieldValue parameters "WD2M_MAX" dateStr
  , cloud_cover_pct := fieldValue parameters "CLOUD_AMT_DAY" dateStr
  , precipitation_mm := fieldValue parameters "PRECTOTCORR" dateStr }

/-- Row normalization for one successful response, lines 113-154:
`first_param = list(parameters.keys())[0]` raises `IndexError` on an empty
mapping (modelled as `.error`); otherwise one row is emitted per key of the
first parameter's date mapping, in iteration order. -/
def normalizeResponse (siteCode : String) (si : SiteInfo)
    (parameters : ParamMap) : Except String (List WeatherRecord) :=
  match parameters with
  | [] => .error "IndexError: list index out of range"
  | (_, firstDates) :: _ =>
      .ok ((firstDates.map Prod.fst).map (mkRow siteCode si parameters))

/-- Field access by output column name (the ten weather columns). -/
def getField (r : WeatherRecord) : String → Option ℚ
  | "air_temp_c" => r.air_temp_c
  | "air_temp_max_c" => r.air_temp_max_c
  | "dewpoint_temp_c" => r.dewpoint_temp_c
  | "solar_radiation_kwh_m2" => r.solar_radiation_kwh_m2
  | "wind_speed_ms" => r.wind_speed_ms
  | "wind_speed_max_ms" => r.wind_speed_max_ms
  | "wind_direction_deg" => r.wind_direction_deg
  | "wind_direction_max_deg" => r.wind_direction_max_deg
  | "cloud_cover_pct" => r.cloud_cover_pct
  | "precipitation_mm" => r.precipitation_mm
  | _ => none

/-- Non-strict lexicographic comparison of character lists by code point
(the comparison Python and pandas use on strings; on `YYYYMMDD` digit
strings it coincides with chronological order). -/
def charListLe : List Char → List Char → Bool
  | [], _ => true
  | _ :: _, [] => false
  | a :: as, b :: bs =>
    if a.toNat < b.toNat then true
    else if b.toNat < a.toNat then false
    else charListLe as bs

/-- Strict lexicographic comparison of character lists by code point. -/
def charListLt : List Char → List Char → Bool
  | _, [] => false
  | [], _ :: _ => true
  | a :: as, b :: bs =>
    if a.toNat < b.toNat then true
    else if b.toNat < a.toNat then false
    else charListLt as bs

def strLe (a b : String) : Bool := charListLe a.data b.data

def strLt (a b : String) : Bool := charListLt a.data b.data

/-- Order on rows used by `df.sort_values(['date'])` (line 162). -/
def dateLe (a b : WeatherRecord) : Prop := strLe a.date b.date = true

/-- Strict version of `dateLe`, for the strict-sortedness statement. -/
def dateLt (a b : WeatherRecord) : Prop := strLt a.date b.date = true

/-- Order used by `sort_values(['site_code', 'date'])` (line 203):
lexicographic on (site code, date). -/
def siteDateLe (a b : WeatherRecord) : Prop :=
  strLt a.site_code b.site_code = true ∨
    (a.site_code = b.site_code ∧ strLe a.date b.date = true)

theorem charToNat_inj {a b : Char} (h : a.toNat = b.toNat) : a = b := by
  apply Char.ext
  apply UInt32.ext
  exact h

theorem charListLe_total : ∀ as bs,
    charListLe as bs = true ∨ charListLe bs as = true := by
  intro as
  induction as with
  | nil => intro bs; left; rfl
  | cons a as ih =>
    intro bs
    cases bs with
    | nil => right; rfl
    | cons b bs =>
      by_cases h1 : a.toNat < b.toNat
      · left; simp [charListLe, h1]
      · by_cases h2 : b.toNat < a.toNat
        · right; simp [charListLe, h2]
        · rcases ih bs with h | h
          · left; simp [charListLe, h1, h2, h]
          · right; simp [charListLe, h1, h2, h]

theorem charListLe_trans : ∀ as bs cs, charListLe as bs = true →
    charListLe bs cs = true → charListLe as cs = true := by
  intro as
  induction as with
  | nil => intro bs cs _ _; rfl
  | cons a as ih =>
    intro bs cs hab hbc
    cases bs with
    | nil => simp [charListLe] at hab
    | cons b bs =>
      cases cs with
      | nil => simp [charListLe] at hbc
      | cons c cs =>
        simp only [charListLe] at hab hbc ⊢
        split_ifs at hab hbc ⊢ <;>
          first
            | rfl
            | (exfalso; omega)
            | exact ih bs cs hab hbc
            | simp at hab
            | simp at hbc

theorem charListLt_trans : ∀ as bs cs, charListLt as bs = true →
    charListLt bs cs = true → charListLt as cs = true := by
  intro as
  induction as with
  | nil =>
    intro bs cs hab hbc
    cases cs with
    | nil => cases bs <;> simp [charListLt] at hab hbc
    | cons c cs => rfl
  | cons a as ih =>
    intro bs cs hab hbc
    cases bs with
    | nil => simp [charListLt] at hab
    | cons b bs =>
      cases cs with
      | nil => simp [charListLt] at hbc
      | cons c cs =>
        simp only [charListLt] at hab hbc ⊢
        split_ifs at hab hbc ⊢ <;>
          first
            | rfl
            | (exfalso; omega)
            | exact ih bs cs hab hbc
            | simp at hab
            | simp at hbc

theorem charListLt_connex : ∀ as bs, charListLt as bs = false →
    charListLt bs as = false → as = bs := by
  intro as
  induction as with
  | nil =>
    intro bs hab _
    cases bs with
    | nil => rfl
    | cons b bs => simp [charListLt] at hab
  | cons a as ih =>
    intro bs hab hba
    cases bs with
    | nil => simp [charListLt] at hba
    | cons b bs =>
      simp only [charListLt] at hab hba
      split_ifs at hab hba <;>
        first
          | (exfalso; omega)
          | (have he : a = b := charToNat_inj (by omega)
             rw [he, ih bs hab hba])
          | simp at hab
          | simp at hba

theorem strLe_total (a b : String) : strLe a b = true ∨ strLe b a = true :=
  charListLe_total a.data b.data

theorem strLe_trans {a b c : String} (h1 : strLe a b = true)
    (h2 : strLe b c = true) : strLe a c = true :=
  charListLe_trans a.data b.data c.data h1 h2

theorem strLt_trans {a b c : String} (h1 : strLt a b = true)
    (h2 : strLt b c = true) : strLt a c = true :=
  charListLt_trans a.data b.data c.data h1 h2

theorem strLt_connex {a b : String} (h1 : strLt a b = false)
    (h2 : strLt b a = false) : a = b :=
  String.toList_inj.mp (charListLt_connex a.data b.data h1 h2)

instance : DecidableRel dateLe := fun a b =>
  inferInstanceAs (Decidable (strLe a.date b.date = true))

instance : DecidableRel dateLt := fun a b =>
  inferInstanceAs (Decidable (strLt a.date b.date = true))

instance : DecidableRel siteDateLe := fun x y =>
  inferInstanceAs (Decidable (strLt x.site_code y.site_code = true ∨
    (x.site_code = y.site_code ∧ strLe x.date y.date = true)))

instance : IsTotal WeatherRecord dateLe :=
  ⟨fun a b => strLe_total a.date b.date⟩

instance : IsTrans WeatherRecord dateLe :=
  ⟨fun _ _ _ hab hbc => strLe_trans hab hbc⟩

instance : IsTotal WeatherRecord siteDateLe := by
  constructor
  intro a b
  by_cases h1 : strLt a.site_code b.site_code = true
  · exact Or.inl (Or.inl h1)
  · by_cases h2 : strLt b.site_code a.site_code = true
    · exact Or.inr (Or.inl h2)
    · have he : a.site_code = b.site_code :=
        strLt_connex (Bool.eq_false_iff.mpr h1) (Bool.eq_false_iff.mpr h2)
      rcases strLe_total a.date b.date with hd | hd
      · exact Or.inl (Or.inr ⟨he, hd⟩)
      · exact Or.inr (Or.inr ⟨he.symm, hd⟩)

instance : IsTrans WeatherRecord siteDateLe := by
  constructor
  intro a b c hab hbc
  rcases hab with h1 | ⟨h1, d1⟩
  · rcases hbc with h2 | ⟨h2, _⟩
    · exact Or.inl (strLt_trans h1 h2)
    · exact Or.inl (h2 ▸ h1)
  · rcases hbc with h2 | ⟨h2, d2⟩
    · exact Or.inl (h1 ▸ h2)
    · exact Or.inr ⟨h1.trans h2, strLe_trans d1 d2⟩

/-- `df.sort_values(['date'])`, line 162. -/
def sortByDate (rows : List WeatherRecord) : List WeatherRecord :=
  List.insertionSort dateLe rows

/-- `combined_df.sort_values(['site_code', 'date'])`, line 203. -/
def sortBySiteDate (rows : List WeatherRecord) : List WeatherRecord :=
  List.insertionSort siteDateLe rows

/-- The year loop of `_process_site_data`, lines 103-154: a failed fetch is
skipped (`continue`); a successful one is normalized and its rows appended
in order. An exception inside normalization propagates. -/
def collectRows (api : Api) (siteCode : String) (si : SiteInfo) :
    List Nat → Except String (List WeatherRecord)
  | [] => .ok []
  | y :: ys =>
    match fetchData api siteCode y with
    | none => collectRows api siteCode si ys
    | some parameters =>
      match normalizeResponse siteCode si parameters with
      | .error e => .error e
      | .ok rs =>
        match collectRows api siteCode si ys with
        | .error e => .error e
        | .ok rest => .ok (rs ++ rest)

/-- `_process_site_data`, lines 98-165: `self.config[site_code]` raises
`KeyError` when the site has no config entry (line 101, modelled as
`.error`); then all configured years are collected and the result is sorted
by date (sorting an empty collection is the identity, matching the early
return of an empty frame at line 158). -/
def processSiteData (cfg : Config) (api : Api) (siteCode : String) :
    Except String (List WeatherRecord) :=
  match cfg.siteInfos.lookup siteCode with
  | none => .error ("KeyError: " ++ siteCode)
  | some si =>
    match collectRows api siteCode si cfg.years with
    | .error e => .error e
    | .ok rows => .ok (sortByDate rows)

def minYearOf (cfg : Config) : Nat := cfg.years.foldl Nat.min (cfg.years.headD 0)

def maxYearOf (cfg : Config) : Nat := cfg.years.foldl Nat.max (cfg.years.headD 0)

/-- Per-site output file name, line 182. -/
def siteFilename (cfg : Config) (siteCode : String) : String :=
  siteCode ++ "_daily_weather_" ++ toString (minYearOf cfg) ++ "-" ++
    toString (maxYearOf cfg) ++ ".csv"

/-- Combined output file name, line 206. -/
def combinedFilename (cfg : Config) : String :=
  "all_sites_daily_weather_" ++ toString (minYearOf cfg) ++ "-" ++
    toString (maxYearOf cfg) ++ ".csv"

/-- The site loop of `fetch_all_data`, lines 171-186: each site is
processed; an empty result is skipped (no file), a non-empty one contributes
one per-site file. An exception from `_process_site_data` propagates. -/
def fetchAllGo (cfg : Config) (api : Api) :
    List String → Except String (List (String × List WeatherRecord))
  | [] => .ok []
  | s :: ss =>
    match processSiteData cfg api s with
    | .error e => .error e
    | .ok df =>
      match fetchAllGo cfg api ss with
      | .error e => .error e
      | .ok rest =>
        .ok (if df.isEmpty then rest else (siteFilename cfg s, df) :: rest)

/-- `fetch_all_data`, lines 167-188. -/
def fetchAllData (cfg : Config) (api : Api) :
    Except String (List (String × List WeatherRecord)) :=
  fetchAllGo cfg api cfg.sites

/-- The site loop of `create_combined_file`, lines 196-199: re-fetches every
site (no caching) and keeps the non-empty per-site frames. -/
def combinedGo (cfg : Config) (api : Api) :
    List String → Except String (List (List WeatherRecord))
  | [] => .ok []
  | s :: ss =>
    match processSiteData cfg api s with
    | .error e => .error e
    | .ok df =>
      match combinedGo cfg api ss with
      | .error e => .error e
      | .ok rest => .ok (if df.isEmpty then rest else df :: rest)

/-- `create_combined_file`, lines 190-212: concatenation of the non-empty
per-site frames, sorted by (site code, date); with no contributing site no
combined file is produced. -/
def createCombined (cfg : Config) (api : Api) :
    Except String (Option (String × List WeatherRecord)) :=
  match combinedGo cfg api cfg.sites with
  | .error e => .error e
  | .ok dfs =>
    if dfs.isEmpty then .ok none
    else .ok (some (combinedFilename cfg, sortBySiteDate dfs.flatten))

instance {ε α : Type} [DecidableEq ε] [DecidableEq α] :
    DecidableEq (Except ε α) := fun x y =>
  match x, y with
  | .error a, .error b => decidable_of_iff (a = b) (by simp)
  | .error _, .ok _ => isFalse (fun h => Except.noConfusion h)
  | .ok _, .error _ => isFalse (fun h => Except.noConfusion h)
  | .ok a, .ok b => decidable_of_iff (a = b) (by simp)

/-- The two data products of one run of `main`. -/
structure PipelineOutput where
  perSiteFiles : List (String × List WeatherRecord)
  combinedFile : Option (String × List WeatherRecord)
  deriving DecidableEq

/-- `main`, lines 227-251: `fetch_all_data` then `create_combined_file`;
any uncaught exception propagates to the top-level handler. -/
def runPipeline (cfg : Config) (api : Api) : Except String PipelineOutput :=
  match fetchAllData cfg api with
  | .error e => .error e
  | .ok perSite =>
    match createCombined cfg api with
    | .error e => .error e
    | .ok combined => .ok ⟨perSite, combined⟩

/-- Process exit status of `main`: 0 on success, 1 from the top-level
`except Exception` handler (lines 247-251). -/
def mainExitCode (cfg : Config) (api : Api) : Nat :=
  match runPipeline cfg api with
  | .ok _ => 0
  | .error _ => 1

/-- `date` column as written by `to_csv` after `pd.to_datetime` (line 161):
`YYYYMMDD` rendered as `YYYY-MM-DD`. -/
def renderDate (d : String) : String :=
  (d.data.take 4).asString ++ "-" ++ ((d.data.drop 4).take 2).asString ++
    "-" ++ (d.data.drop 6).asString

/-- A CSV cell: empty for a missing value. -/
def renderCell : Option ℚ → String
  | none => ""
  | some q => renderQ q

def headerLine : String :=
  "site_code,points,latitude,longitude,date,year,month,day,air_temp_c," ++
  "air_temp_max_c,dewpoint_temp_c,solar_radiation_kwh_m2,wind_speed_ms," ++
  "wind_speed_max_ms,wind_direction_deg,wind_direction_max_deg," ++
  "cloud_cover_pct,precipitation_mm"

def renderRow (r : WeatherRecord) : String :=
  String.intercalate ","
    [ r.site_code, r.points, renderQ r.latitude, renderQ r.longitude
    , renderDate r.date, toString r.year, toString r.month, toString r.day
    , renderCell r.air_temp_c, renderCell r.air_temp_max_c
    , renderCell r.dewpoint_temp_c, renderCell r.solar_radiation_kwh_m2
    , renderCell r.wind_speed_ms, renderCell r.wind_speed_max_ms
    , renderCell r.wind_direction_deg, renderCell r.wind_direction_max_deg
    , renderCell r.cloud_cover_pct, renderCell r.precipitation_mm ]

def renderFile (rows : List WeatherRecord) : String :=
  String.intercalate "\x0a" (headerLine :: rows.map renderRow)

/-- All files written by one run, as (name, byte content) pairs. -/
def runOutputs (cfg : Config) (api : Api) :
    Except String (List (String × String)) :=
  match runPipeline cfg api with
  | .error e => .error e
  | .ok out =>
    .ok ((out.perSiteFiles.map fun f => (f.1, renderFile f.2)) ++
      (match out.combinedFile with
       | none => []
       | some f => [(f.1, renderFile f.2)]))

/-! ### Concrete instances used by witnesses and counterexamples -/

/-- A fixed site configuration entry used in concrete scenarios. -/
def siteA : SiteInfo := { lat := 1, long := 2, points := "P1" }

/-- One site, one year. -/
def cfgOneSite : Config :=
  { sites := ["A"], siteInfos := [("A", siteA)], years := [2020]
  , parameters := ["T2M"], community := "ag" }

/-- An API whose successful responses carry an empty parameter mapping. -/
def apiEmptyParam : Api := fun _ _ => .success []

/-- Response with `T2M` present and valued at the enumerated date. -/
def c1WitnessResp : ParamMap := [("T2M", [("20200101", 15.2)])]

/-- Response whose first parameter enumerates a date missing from `T2M`. -/
def c9WitnessResp : ParamMap :=
  [("WS2M", [("20200102", 3)]), ("T2M", [("20200101", 15)])]


/-! ### Helper lemmas -/

theorem mkRow_date (siteCode : String) (si : SiteInfo) (parameters : ParamMap)
    (dateStr : String) : (mkRow siteCode si parameters dateStr).date = dateStr :=
  rfl

theorem mkRow_site (siteCode : String) (si : SiteInfo) (parameters : ParamMap)
    (dateStr : String) :
    (mkRow siteCode si parameters dateStr).site_code = siteCode :=
  rfl

theorem getField_mkRow_all (siteCode : String) (si : SiteInfo)
    (parameters : ParamMap) (dateStr : String) :
    ∀ pc ∈ paramMapping,
      getField (mkRow siteCode si parameters dateStr) pc.2 =
        fieldValue parameters pc.1 dateStr := by
  intro pc hpc
  fin_cases hpc <;> rfl

theorem getField_mkRow {p col : String} (hpc : (p, col) ∈ paramMapping)
    (siteCode : String) (si : SiteInfo) (parameters : ParamMap)
    (dateStr : String) :
    getField (mkRow siteCode si parameters dateStr) col =
      fieldValue parameters p dateStr :=
  getField_mkRow_all siteCode si parameters dateStr (p, col) hpc

theorem normalizeResponse_mem {siteCode : String} {si : SiteInfo}
    {parameters : ParamMap} {rows : List WeatherRecord}
    (h : normalizeResponse siteCode si parameters = .ok rows)
    {r : WeatherRecord} (hr : r ∈ rows) :
    ∃ d, r = mkRow siteCode si parameters d := by
  cases parameters with
  | nil => exact Except.noConfusion h
  | cons q rest =>
    obtain ⟨p0, dm⟩ := q
    simp only [normalizeResponse, Except.ok.injEq] at h
    subst h
    simp only [List.mem_map] at hr
    obtain ⟨d, _, rfl⟩ := hr
    exact ⟨d, rfl⟩

theorem fieldValue_present {parameters : ParamMap} {p : String}
    {m : List (String × ℚ)} (hm : parameters.lookup p = some m) (d : String) :
    fieldValue parameters p d = sentinelFilter (m.lookup d) := by
  unfold fieldValue
  rw [hm]

theorem fieldValue_absent {parameters : ParamMap} {p : String}
    (hm : parameters.lookup p = none) (d : String) :
    fieldValue parameters p d = none := by
  unfold fieldValue
  rw [hm]

/-! ### Claim theorems -/

/-- Claim C1: for every successful response and every emitted row, each of
the ten fixed weather fields follows the copy / sentinel-null / absent-null
policy: a present parameter whose value at the row's date is not `-999` is
copied unchanged; a present parameter whose value is `-999` gives null; a
parameter absent from the response gives null without error. -/
theorem c1_field_policy
    (siteCode : String) (si : SiteInfo) (parameters : ParamMap)
    (rows : List WeatherRecord) (r : WeatherRecord) (p col : String)
    (m : List (String × ℚ)) (v : ℚ)
    (hrows : normalizeResponse siteCode si parameters = .ok rows)
    (hr : r ∈ rows) (hpc : (p, col) ∈ paramMapping) :
    (parameters.lookup p = some m → m.lookup r.date = some v →
      ((v ≠ -999 → getField r col = some v) ∧
       (v = -999 → getField r col = none))) ∧
    (parameters.lookup p = none → getField r col = none) := by
  obtain ⟨d, rfl⟩ := normalizeResponse_mem hrows hr
  rw [getField_mkRow hpc]
  simp only [mkRow_date]
  constructor
  · intro hm hd
    rw [fieldValue_present hm, hd]
    constructor
    · intro hv
      simp [sentinelFilter, hv]
    · intro hv
      subst hv
      simp [sentinelFilter]
  · intro hm
    exact fieldValue_absent hm d

/-- Witness for C1 at a concrete response: site "A", parameter `T2M` with
value 15.2 on a date, `T2M` entirely absent for a second column. -/
theorem c1_field_policy_witness :
    ((15.2 : ℚ) ≠ -999 →
      getField (mkRow "A" siteA c1WitnessResp "20200101") "air_temp_c" =
        some 15.2) ∧
    ((15.2 : ℚ) = -999 →
      getField (mkRow "A" siteA c1WitnessResp "20200101") "air_temp_c" =
        none) := by
  have h := c1_field_policy "A" siteA c1WitnessResp
    [mkRow "A" siteA c1WitnessResp "20200101"]
    (mkRow "A" siteA c1WitnessResp "20200101") "T2M" "air_temp_c"
    [("20200101", 15.2)] 15.2
    (by rw [show c1WitnessResp = [("T2M", [("20200101", (15.2 : ℚ))])] from rfl]
        rfl)
    (by simp) (by simp [paramMapping])
  exact h.1 rfl rfl

/-- Claim C9: a parameter present in the response but lacking an entry for
the row's date yields a null output field, with no error: `dict.get`
returns `None`, which the sentinel comparison leaves as `None`. -/
theorem c9_missing_date_null
    (siteCode : String) (si : SiteInfo) (parameters : ParamMap)
    (rows : List WeatherRecord) (r : WeatherRecord) (p col : String)
    (m : List (String × ℚ))
    (hrows : normalizeResponse siteCode si parameters = .ok rows)
    (hr : r ∈ rows) (hpc : (p, col) ∈ paramMapping)
    (hm : parameters.lookup p = some m) (hd : m.lookup r.date = none) :
    getField r col = none := by
  obtain ⟨d, rfl⟩ := normalizeResponse_mem hrows hr
  simp only [mkRow_date] at hd
  rw [getField_mkRow hpc, fieldValue_present hm, hd]
  rfl

/-- Witness for C9: `T2M` present but with no entry for the enumerated date
`"20200102"` of the first parameter `WS2M`. -/
theorem c9_missing_date_null_witness :
    getField (mkRow "A" siteA c9WitnessResp "20200102") "air_temp_c" =
      none := by
  exact c9_missing_date_null "A" siteA c9WitnessResp
    [mkRow "A" siteA c9WitnessResp "20200102"]
    (mkRow "A" siteA c9WitnessResp "20200102") "T2M" "air_temp_c"
    [("20200101", 15)] rfl (by simp) (by simp [paramMapping]) rfl rfl

/-- Claim C2 (code-bug evidence): a successful response whose
`properties.parameter` mapping is empty makes row normalization raise
`IndexError` (at `list(parameters.keys())[0]`), and the exception
propagates to the top-level handler, exiting with status 1 — it is not
treated as "zero records plus a warning". -/
theorem c2_empty_mapping_crash :
    normalizeResponse "A" siteA [] =
      .error "IndexError: list index out of range" ∧
    mainExitCode cfgOneSite apiEmptyParam = 1 :=
  ⟨rfl, rfl⟩

/-- Claim C4: the constructed query contains exactly the keys `parameters`,
`community`, `longitude`, `latitude`, `start=YYYY0101`, `end=YYYY1231`,
`format=json`, with no other keys, and the URL is the `&`-join of `k=v`
pairs after `?`. -/
theorem c4_query_keys (cfg : Config) (si : SiteInfo) (year : Nat) :
    (buildApiParams cfg si year).map Prod.fst =
      ["parameters", "community", "longitude", "latitude", "start", "end",
        "format"] ∧
    (buildApiParams cfg si year).lookup "parameters" =
      some (String.intercalate "," cfg.parameters) ∧
    (buildApiParams cfg si year).lookup "community" = some cfg.community ∧
    (buildApiParams cfg si year).lookup "longitude" = some (renderQ si.long) ∧
    (buildApiParams cfg si year).lookup "latitude" = some (renderQ si.lat) ∧
    (buildApiParams cfg si year).lookup "start" =
      some (toString year ++ "0101") ∧
    (buildApiParams cfg si year).lookup "end" =
      some (toString year ++ "1231") ∧
    (buildApiParams cfg si year).lookup "format" = some "json" ∧
    buildApiUrl cfg si year = baseUrl ++ "?" ++ String.intercalate "&"
      ((buildApiParams cfg si year).map fun kv => kv.1 ++ "=" ++ kv.2) :=
  ⟨rfl, rfl, rfl, rfl, rfl, rfl, rfl, rfl, rfl⟩


/-- An API that always fails with a transport error. -/
def apiAllFail : Api := fun _ _ => .requestError

/-- The response of the C7 scenario. -/
def respC7 : ParamMap := [("T2M", [("20200101", 15.2), ("20200102", -999)])]


theorem collectRows_filter (api : Api) (siteCode : String) (si : SiteInfo) :
    ∀ years : List Nat,
      collectRows api siteCode si years =
        collectRows api siteCode si
          (years.filter fun y => (fetchData api siteCode y).isSome) := by
  intro years
  induction years with
  | nil => rfl
  | cons y ys ih =>
    by_cases h : (fetchData api siteCode y).isSome
    · obtain ⟨ps, hps⟩ := Option.isSome_iff_exists.mp h
      rw [List.filter_cons_of_pos (by simpa using h)]
      simp only [collectRows, hps]
      rw [ih]
    · have h0 : fetchData api siteCode y = none :=
        Option.not_isSome_iff_eq_none.mp h
      rw [List.filter_cons_of_neg (by simp [h0])]
      simp only [collectRows, h0]
      exact ih

/-- Claim C3: a (site, year) pair whose fetch fails contributes no rows to
any output — processing a site is unchanged if the failing years are
removed from the configuration — and a site all of whose fetches fail
yields zero rows without raising. -/
theorem c3_failed_fetch_skipped :
    (∀ (cfg : Config) (api : Api) (s : String),
      processSiteData cfg api s =
        processSiteData
          { cfg with years :=
              cfg.years.filter fun y => (fetchData api s y).isSome } api s) ∧
    (∀ (cfg : Config) (api : Api) (s : String) (si : SiteInfo),
      cfg.siteInfos.lookup s = some si →
      (∀ y ∈ cfg.years, fetchData api s y = none) →
      processSiteData cfg api s = .ok []) := by
  constructor
  · intro cfg api s
    obtain ⟨sites, siteInfos, years, parameters, community⟩ := cfg
    unfold processSiteData
    dsimp only
    cases hls : siteInfos.lookup s with
    | none => rfl
    | some si => simp only [collectRows_filter api s si years]
  · intro cfg api s si hsi hfail
    have hz : (cfg.years.filter fun y => (fetchData api s y).isSome) = [] := by
      rw [List.filter_eq_nil_iff]
      intro y hy
      simp [hfail y hy]
    have h2 := collectRows_filter api s si cfg.years
    rw [hz] at h2
    unfold processSiteData
    simp only [hsi]
    rw [h2]
    simp only [collectRows]
    rfl

/-- Witness for C3: one configured site and year, every fetch failing. -/
theorem c3_failed_fetch_skipped_witness :
    processSiteData cfgOneSite apiAllFail "A" = .ok [] :=
  c3_failed_fetch_skipped.2 cfgOneSite apiAllFail "A" siteA rfl
    (fun _ _ => rfl)

/-- Claim C6: after normalizing a successful response there is exactly one
record per (site, date) pair, and the emitted dates are exactly the key
set of the parameter that appears first in the response mapping. -/
theorem c6_one_record_per_date
    (siteCode : String) (si : SiteInfo) (parameters : ParamMap)
    (rows : List WeatherRecord) (p0 : String) (dm : List (String × ℚ))
    (hhead : parameters.head? = some (p0, dm))
    (hrows : normalizeResponse siteCode si parameters = .ok rows) :
    (rows.map fun r => r.date) = dm.map Prod.fst ∧
    (∀ r ∈ rows, r.site_code = siteCode) ∧
    ((dm.map Prod.fst).Nodup →
      (rows.map fun r => (r.site_code, r.date)).Nodup) := by
  cases parameters with
  | nil => exact Option.noConfusion hhead
  | cons q rest =>
    obtain ⟨p1, dm1⟩ := q
    simp only [List.head?_cons, Option.some.injEq, Prod.mk.injEq] at hhead
    obtain ⟨rfl, rfl⟩ := hhead
    simp only [normalizeResponse, Except.ok.injEq] at hrows
    subst hrows
    refine ⟨?_, ?_, ?_⟩
    · simp [List.map_map, Function.comp_def, mkRow_date]
    · intro r hr
      simp only [List.mem_map] at hr
      obtain ⟨d, _, rfl⟩ := hr
      rfl
    · intro hnd
      have hmap : ((dm1.map Prod.fst).map
            (mkRow siteCode si ((p1, dm1) :: rest))).map
            (fun r => (r.site_code, r.date)) =
          (dm1.map Prod.fst).map (fun d => (siteCode, d)) := by
        simp [List.map_map, Function.comp_def, mkRow_date, mkRow_site]
      rw [hmap]
      exact hnd.map (fun a b h => by simpa using h)

/-- Witness for C6 at a concrete two-parameter response. -/
theorem c6_one_record_per_date_witness :
    ([mkRow "A" siteA c9WitnessResp "20200102"].map fun r => r.date) =
      ["20200102"] ∧
    (∀ r ∈ [mkRow "A" siteA c9WitnessResp "20200102"],
      r.site_code = "A") ∧
    ((["20200102"] : List String).Nodup →
      ([mkRow "A" siteA c9WitnessResp "20200102"].map fun r =>
        (r.site_code, r.date)).Nodup) :=
  c6_one_record_per_date "A" siteA c9WitnessResp
    [mkRow "A" siteA c9WitnessResp "20200102"] "WS2M" [("20200102", 3)]
    rfl rfl

/-- Claim C7: normalizing the response
`{"properties":{"parameter":{"T2M":{"20200101": 15.2, "20200102": -999}}}}`
for site "A" yields exactly two records — 2020-01-01 with air
temperature 15.2 and 2020-01-02 with a null air temperature — with the
other nine weather fields null on both. -/
theorem c7_scenario :
    normalizeResponse "A" siteA respC7 = .ok
      [ { site_code := "A", points := "P1", latitude := 1, longitude := 2
        , date := "20200101", year := 2020, month := 1, day := 1
        , air_temp_c := some 15.2, air_temp_max_c := none
        , dewpoint_temp_c := none, solar_radiation_kwh_m2 := none
        , wind_speed_ms := none, wind_speed_max_ms := none
        , wind_direction_deg := none, wind_direction_max_deg := none
        , cloud_cover_pct := none, precipitation_mm := none }
      , { site_code := "A", points := "P1", latitude := 1, longitude := 2
        , date := "20200102", year := 2020, month := 1, day := 2
        , air_temp_c := none, air_temp_max_c := none
        , dewpoint_temp_c := none, solar_radiation_kwh_m2 := none
        , wind_speed_ms := none, wind_speed_max_ms := none
        , wind_direction_deg := none, wind_direction_max_deg := none
        , cloud_cover_pct := none, precipitation_mm := none } ] := by
  have h152 : (15.2 : ℚ) = Rat.mk' 76 5 (by decide) (by decide) := by
    rw [Rat.mk'_eq_divInt, Rat.divInt_eq_div]
    norm_num
  rw [show respC7 =
    [("T2M", [("20200101", (15.2 : ℚ)), ("20200102", -999)])] from rfl]
  rw [h152]
  decide


/-- Config whose two years will fetch the same dated response. -/
def cfgDupDates : Config :=
  { sites := ["A"], siteInfos := [("A", siteA)], years := [2020, 2021]
  , parameters := ["T2M"], community := "ag" }

/-- An upstream that answers every (site, year) with the same response. -/
def apiDupDates : Api := fun _ _ => .success [("T2M", [("20200101", 1)])]

/-- The row the duplicate-date run produces twice. -/
def rowDup : WeatherRecord :=
  mkRow "A" siteA [("T2M", [("20200101", 1)])] "20200101"

/-- A second always-failing API, syntactically different from
`apiAllFail` but with the same values. -/
def apiAllFail2 : Api := fun s _ =>
  if s = s then .requestError else .badShape

/-- Config listing a site code that has no per-site entry. -/
def cfgMissingSite : Config :=
  { sites := ["B"], siteInfos := [("A", siteA)], years := [2020]
  , parameters := ["T2M"], community := "ag" }


theorem processSiteData_ok_sorted {cfg : Config} {api : Api} {s : String}
    {rows : List WeatherRecord}
    (h : processSiteData cfg api s = .ok rows) : List.Sorted dateLe rows := by
  unfold processSiteData at h
  cases hls : cfg.siteInfos.lookup s with
  | none => simp only [hls] at h; exact Except.noConfusion h
  | some si =>
    simp only [hls] at h
    cases hc : collectRows api s si cfg.years with
    | error e => simp only [hc] at h; exact Except.noConfusion h
    | ok rows0 =>
      simp only [hc, Except.ok.injEq] at h
      subst h
      exact List.sorted_insertionSort dateLe rows0

theorem createCombined_ok_sorted {cfg : Config} {api : Api} {name : String}
    {rows : List WeatherRecord}
    (h : createCombined cfg api = .ok (some (name, rows))) :
    List.Sorted siteDateLe rows := by
  unfold createCombined at h
  cases hc : combinedGo cfg api cfg.sites with
  | error e => simp only [hc] at h; exact Except.noConfusion h
  | ok dfs =>
    simp only [hc] at h
    cases hd : dfs.isEmpty with
    | true => simp [hd] at h
    | false =>
      simp only [hd, Bool.false_eq_true, if_false, Except.ok.injEq,
        Option.some.injEq, Prod.mk.injEq] at h
      obtain ⟨-, h2⟩ := h
      subst h2
      exact List.sorted_insertionSort siteDateLe dfs.flatten

/-- Claim C5 (amended): every per-site dataset is sorted ascending
(non-strictly) by date, and the combined dataset is sorted ascending by
(site code, date); strictness by date can fail when the same date occurs
in the responses of two fetched years. -/
theorem c5_sorted_amended :
    (∀ (cfg : Config) (api : Api) (s : String) (rows : List WeatherRecord),
      processSiteData cfg api s = .ok rows → List.Sorted dateLe rows) ∧
    (∀ (cfg : Config) (api : Api) (name : String)
      (rows : List WeatherRecord),
      createCombined cfg api = .ok (some (name, rows)) →
      List.Sorted siteDateLe rows) :=
  ⟨fun _ _ _ _ h => processSiteData_ok_sorted h,
   fun _ _ _ _ h => createCombined_ok_sorted h⟩

/-- Counterexample to C5 as stated: with years `[2020, 2021]` and an
upstream that returns the same single-date response for both years, the
per-site dataset contains the same date twice — sorted, but not strictly
ascending. -/
theorem c5_strict_counterexample :
    processSiteData cfgDupDates apiDupDates "A" = .ok [rowDup, rowDup] ∧
    ¬ List.Sorted dateLt [rowDup, rowDup] := by
  constructor
  · decide
  · decide

/-- Witness for the amended C5 at the concrete duplicate-date run. -/
theorem c5_sorted_amended_witness :
    List.Sorted dateLe [rowDup, rowDup] ∧
    List.Sorted siteDateLe [rowDup, rowDup] :=
  ⟨c5_sorted_amended.1 cfgDupDates apiDupDates "A" [rowDup, rowDup]
      (by decide),
   c5_sorted_amended.2 cfgDupDates apiDupDates
      (combinedFilename cfgDupDates) [rowDup, rowDup] (by decide)⟩

/-- Claim C8: with a fixed configuration and fixed API responses, the run
is deterministic — the produced files (names and byte contents) depend
only on the response values, so two runs produce identical outputs. -/
theorem c8_deterministic (cfg : Config) (api1 api2 : Api)
    (h : ∀ s y, api1 s y = api2 s y) :
    runOutputs cfg api1 = runOutputs cfg api2 := by
  have he : api1 = api2 := funext fun s => funext fun y => h s y
  rw [he]

/-- Witness for C8: two syntactically different oracles with equal values
give byte-identical outputs. -/
theorem c8_deterministic_witness :
    runOutputs cfgOneSite apiAllFail = runOutputs cfgOneSite apiAllFail2 :=
  c8_deterministic cfgOneSite apiAllFail apiAllFail2
    (fun s _ => by simp [apiAllFail, apiAllFail2])

theorem fetchAllGo_error_of_missing (cfg : Config) (api : Api) (s : String)
    (hnone : cfg.siteInfos.lookup s = none) :
    ∀ sites : List String, s ∈ sites →
      ∃ e, fetchAllGo cfg api sites = .error e := by
  intro sites
  induction sites with
  | nil => intro hmem; exact absurd hmem (List.not_mem_nil s)
  | cons t ts ih =>
    intro hmem
    by_cases hts : s = t
    · subst hts
      refine ⟨"KeyError: " ++ s, ?_⟩
      simp only [fetchAllGo, processSiteData, hnone]
    · have hmem2 : s ∈ ts := by
        rcases List.mem_cons.mp hmem with h | h
        · exact absurd h hts
        · exact h
      obtain ⟨e, he⟩ := ih hmem2
      cases hp : processSiteData cfg api t with
      | error e2 => exact ⟨e2, by simp only [fetchAllGo, hp]⟩
      | ok df => exact ⟨e, by simp only [fetchAllGo, hp, he]⟩

/-- Claim C10: a site code listed in `sites` with no per-site config entry
is not absorbed like a fetch failure: the `KeyError` raised by the config
lookup propagates to the top-level handler and the run exits with
status 1. -/
theorem c10_missing_site_config_fatal (cfg : Config) (api : Api)
    (s : String) (hs : s ∈ cfg.sites)
    (hnone : cfg.siteInfos.lookup s = none) :
    mainExitCode cfg api = 1 := by
  obtain ⟨e, he⟩ := fetchAllGo_error_of_missing cfg api s hnone cfg.sites hs
  unfold mainExitCode runPipeline fetchAllData
  simp only [he]

/-- Witness for C10: site "B" is listed but has no config entry. -/
theorem c10_missing_site_config_fatal_witness :
    mainExitCode cfgMissingSite apiAllFail = 1 :=
  c10_missing_site_config_fatal cfgMissingSite apiAllFail "B"
    (by decide) rfl


end NasaPower
